import Mathlib

/-!
Shallow embedding of `elev` (saltnpepper97/nexus), a setuid privilege-elevation
tool.  The repository ships `src/main.rs`; the modules `config`, `auth`,
`util` and `logs` referenced from `main.rs` are not in the tree, so their
operations (`Config::load`, `AuthState`, `verify_password`, `switch_user`,
`run_command`, `get_user_groups`) are modelled from the specification,
each marked `Modelled from the spec:`.  Everything in `elevMain` itself
mirrors `main.rs` line by line.
-/

namespace Elev

/-- Rule subject: a username or a `%group` (spec §3, §6). -/
inductive Subject where
  | user (name : String)
  | group (name : String)
deriving DecidableEq, Repr

/-- Modelled from the spec: a policy rule {subject, targets (usernames or
`ALL` wildcard), requires_password} (spec §3 Rule, §6 policy file).
The parsing module `config.rs` is absent from the tree. -/
structure Rule where
  subject : Subject
  targets : List String
  requires_password : Bool
deriving DecidableEq, Repr

/-- Modelled from the spec: the loaded policy {timeout, ordered rules}
(spec §3 Policy); `config.rs` is absent from the tree. -/
structure Config where
  timeout : Nat
  rules : List Rule
deriving DecidableEq, Repr

/-- Errors `Config::load` can produce (spec §4.1). -/
inductive ConfigError where
  | notFound
  | malformed
  | insecurePermissions
deriving DecidableEq, Repr

/-- Does a rule subject match the invoker name or one of its groups? -/
def subjectMatches (s : Subject) (name : String) (groups : List String) : Bool :=
  match s with
  | .user u => u == name
  | .group g => groups.contains g

/-- Modelled from the spec: `evaluate(policy, invoker, target)` scans the
rules in file order and returns the first rule whose subject matches the
invoker name or any group and whose targets include the requested target
or the `ALL` wildcard; no match means denied (spec §4.1). -/
def Config.evaluate (cfg : Config) (name : String) (groups : List String)
    (target : String) : Option Rule :=
  cfg.rules.find? (fun r =>
    subjectMatches r.subject name groups &&
      (r.targets.contains "ALL" || r.targets.contains target))

/-- Modelled from the spec: a credential-cache record {granted_at,
owner/permission status of its backing storage} (spec §3 CachedSession). -/
structure CachedSession where
  granted_at : Nat
  permsOk : Bool
deriving DecidableEq, Repr

/-- The credential cache: one record per invoking identity (spec §4.2). -/
def Cache : Type := List (String × CachedSession)

instance : DecidableEq Cache := inferInstanceAs (DecidableEq (List (String × CachedSession)))

/-- Modelled from the spec: `record_success(identity)` atomically overwrites
the record with the current time, storage owned by the privileged
principal with owner-only permissions (spec §4.2). -/
def record_success (c : Cache) (id : String) (now : Nat) : Cache :=
  (id, ⟨now, true⟩) :: c.filter (fun p => p.1 ≠ id)

/-- Modelled from the spec: `is_valid(identity, timeout)` is true iff a
record exists for the identity, its storage has correct
owner/permissions, the timestamp is not in the future (tampering signal,
fail closed), and `now - granted_at < timeout` (spec §4.2). -/
def is_valid (c : Cache) (id : String) (timeout now : Nat) : Bool :=
  match c.lookup id with
  | none => false
  | some s => s.permsOk && s.granted_at ≤ now && now - s.granted_at < timeout

/-- Modelled from the spec: `invalidate(identity)` removes the record,
idempotent when absent (spec §4.2). -/
def invalidate (c : Cache) (id : String) : Cache :=
  c.filter (fun p => p.1 ≠ id)

/-- Target user record as returned by `User::from_name` (dir and shell are
the fields `main.rs` uses). -/
structure UserEntry where
  dir : String
  shell : String
deriving DecidableEq, Repr

/-- Error kinds `run_command` can surface (`std::io::ErrorKind` values the
handler in `main.rs` distinguishes). -/
inductive ErrKind where
  | permissionDenied
  | notFound
  | timedOut
  | other
deriving DecidableEq, Repr

/-- Parsed command-line invocation, after clap: target user (default
"root"), the `-i`, `-K`, `-v` flags, the trailing command words, plus the
invoker's real and effective uid and inherited environment. -/
structure Invocation where
  uid : Nat
  euid : Nat
  loginFlag : Bool
  resetFlag : Bool
  targetUser : String
  command : List String
  env : List (String × String)
deriving DecidableEq, Repr

/-- External world: results of every system interaction `main.rs` performs.
`passwd` is the `getpwuid` result for the real uid (`none` = no entry,
`some none` = entry with null name field).  `configLoad` and `configLoad2`
are the results of the first (line 106) and second (line 169) reads of
`/etc/elev.conf`; the file can change between them.  `checkPassword n`
says whether the password typed at the prompt matches identity `n` in the
system credential database. -/
structure World where
  passwd : Option (Option String)
  groupsOf : String → List String
  configLoad : Except ConfigError Config
  configLoad2 : Except ConfigError Config
  cache : Cache
  now : Nat
  targetLookup : Except String (Option UserEntry)
  switchResult : Except String Unit
  execResult : Option ErrKind
  checkPassword : String → Bool

/-- Observable events of one invocation, in order. -/
inductive Event where
  | loadConfig
  | invalidateCache (who : String)
  | evalPolicy (invoker target : String)
  | authenticate (who : String)
  | cacheRecord (who : String)
  | switchUser (target : String)
  | execAttempt (prog : String) (args : List String) (env : List (String × String))
deriving DecidableEq, Repr

/-- Final fate of the process: terminated with an exit status, or its
image replaced by a successful exec. -/
inductive Outcome where
  | exited (code : Nat)
  | replaced (prog : String) (args : List String) (env : List (String × String))
deriving DecidableEq, Repr

/-- Result of a run: the outcome, the event trace, and the final
credential-cache contents. -/
structure RunResult where
  outcome : Outcome
  events : List Event
  cache : Cache
deriving DecidableEq

/-- Environment handed to an exec'd process by `std::process::Command`:
the inherited environment unless cleared, with the explicit `.env`
overrides applied on top.  `main.rs` never calls `env_clear` on the
login-shell path, so `envClear` is false there. -/
def execEnv (envClear : Bool) (inherited overrides : List (String × String)) :
    List (String × String) :=
  (if envClear then [] else inherited.filter (fun p => (overrides.lookup p.1).isNone))
    ++ overrides

/-- The `PS1` prompt string `main.rs` sets for the login shell. -/
def loginPrompt : String := "\\u@\\h: \\w\\$ "

/-- The function `real_username` from `main.rs` lines 17-33: name from the passwd entry
for the real uid; if the lookup fails (no entry or null name field), fall
back to the decimal string of the uid. -/
def real_username (passwd : Option (Option String)) (uid : Nat) : String :=
  match passwd with
  | some (some name) => name
  | _ => toString uid

/-- The invoker's username as `main.rs` line 100 computes it. -/
def invokerName (inv : Invocation) (w : World) : String :=
  real_username w.passwd inv.uid

/-- Fixed safe PATH for the fresh environment (spec §4.5; value not fixed
by the spec). -/
def defaultPath : String := "/usr/local/sbin:/usr/local/bin:/usr/sbin:/usr/bin:/sbin:/bin"

/-- Modelled from the spec: `verify_password` (module `auth`, absent from
the tree), called as `verify_password(&current_user, &mut auth_state,
&config, &target_user, &command)`.  Per spec §4.1/§4.3 it evaluates the
policy for (invoker, target); no matching rule means failure; a matching
rule that requires a password prompts the *invoker* for their own
password against the system credential database and records success in
the cache; a matching rule without the password flag succeeds without a
prompt.  Returns success flag, updated cache, and emitted events. -/
def verify_password (cu : String) (groups : List String) (cfg : Config)
    (target : String) (w : World) (c : Cache) : Bool × Cache × List Event :=
  match cfg.evaluate cu groups target with
  | none => (false, c, [.evalPolicy cu target])
  | some r =>
    if r.requires_password then
      if w.checkPassword cu then
        (true, record_success c cu w.now,
          [.evalPolicy cu target, .authenticate cu, .cacheRecord cu])
      else
        (false, c, [.evalPolicy cu target, .authenticate cu])
    else
      (true, c, [.evalPolicy cu target])

/-- Modelled from the spec: `run_command` (module `util`, absent from the
tree), called as `run_command(command, &args, target_user, &config,
&mut auth_state)` and returning `io::Result`.  Per spec §4.1/§4.4/§4.5 it
evaluates the policy (denied means `PermissionDenied`, no exec), commits
the privilege switch, and replaces the process image with the command
under a freshly built minimal environment (HOME, USER, LOGNAME, SHELL,
PATH), discarding the inherited one; a returned exec is an error. -/
def run_command (cmd : String) (args : List String) (target : String)
    (cfg : Config) (cu : String) (groups : List String) (w : World) :
    Except ErrKind Outcome × List Event :=
  match cfg.evaluate cu groups target with
  | none => (.error .permissionDenied, [.evalPolicy cu target])
  | some _ =>
    match w.switchResult with
    | .error _ => (.error .other, [.evalPolicy cu target, .switchUser target])
    | .ok _ =>
      match w.targetLookup with
      | .error _ => (.error .notFound, [.evalPolicy cu target, .switchUser target])
      | .ok none => (.error .notFound, [.evalPolicy cu target, .switchUser target])
      | .ok (some u) =>
        let env := execEnv true [] [("HOME", u.dir), ("USER", target),
          ("LOGNAME", target), ("SHELL", u.shell), ("PATH", defaultPath)]
        match w.execResult with
        | none => (.ok (.replaced cmd args env),
            [.evalPolicy cu target, .switchUser target, .execAttempt cmd args env])
        | some k => (.error k,
            [.evalPolicy cu target, .switchUser target, .execAttempt cmd args env])

/-- The `-i` login-shell path, `main.rs` lines 118-154: switch user, look
up the target's passwd entry, exec the shell with `.env` overrides on top
of the inherited environment (no `env_clear`), exit 1 on any failure or
returned exec. -/
def loginPath (inv : Invocation) (w : World) : RunResult :=
  let target := inv.targetUser
  match w.switchResult with
  | .error _ => ⟨.exited 1, [.loadConfig, .switchUser target], w.cache⟩
  | .ok _ =>
    match w.targetLookup with
    | .error _ => ⟨.exited 1, [.loadConfig, .switchUser target], w.cache⟩
    | .ok none => ⟨.exited 1, [.loadConfig, .switchUser target], w.cache⟩
    | .ok (some u) =>
      -- lines 141-148: Command::new(shell) with .env overrides, no env_clear
      let env := execEnv false inv.env [("HOME", u.dir), ("USER", target),
        ("LOGNAME", target), ("SHELL", u.shell), ("PS1", loginPrompt)]
      match w.execResult with
      | none => ⟨.replaced u.shell ["-l"] env,
          [.loadConfig, .switchUser target, .execAttempt u.shell ["-l"] env],
          w.cache⟩
      | some _ => ⟨.exited 1,
          [.loadConfig, .switchUser target, .execAttempt u.shell ["-l"] env],
          w.cache⟩

/-- The plain-command path, `main.rs` lines 157-206: reload the config
(exit 1 on failure), check the cache timeout, prompt via
`verify_password` when stale (exit 1 on failure), then `run_command`,
mapping any returned error to exit 1. -/
def plainPath (inv : Invocation) (w : World) (cu : String) : RunResult :=
  let groups := w.groupsOf cu
  let target := inv.targetUser
  let cmd := inv.command.headD ""
  let args := inv.command.tail
  -- lines 169-172: second Config::load, unwrap_or_else exits 1
  match w.configLoad2 with
  | .error _ => ⟨.exited 1, [.loadConfig, .loadConfig], w.cache⟩
  | .ok cfg2 =>
    -- lines 177-183: if !check_timeout then verify_password or exit 1
    if is_valid w.cache cu cfg2.timeout w.now then
      let r := run_command cmd args target cfg2 cu groups w
      ⟨match r.1 with | .ok o => o | .error _ => .exited 1,
       [.loadConfig, .loadConfig] ++ r.2, w.cache⟩
    else
      let v := verify_password cu groups cfg2 target w w.cache
      if v.1 then
        let r := run_command cmd args target cfg2 cu groups w
        ⟨match r.1 with | .ok o => o | .error _ => .exited 1,
         [.loadConfig, .loadConfig] ++ v.2.2 ++ r.2, v.2.1⟩
      else
        ⟨.exited 1, [.loadConfig, .loadConfig] ++ v.2.2, v.2.1⟩

/-- Core of `main` after the username has been resolved: threads the one
string `cu` (the invoker's username) through group resolution, policy
matching and cache keying, exactly as `main.rs` lines 100-206 do. -/
def elevMainCore (inv : Invocation) (w : World) (cu : String) : RunResult :=
  -- line 106: Config::load("/etc/elev.conf").expect(...) — Err panics (status 101)
  match w.configLoad with
  | .error _ => ⟨.exited 101, [.loadConfig], w.cache⟩
  | .ok _cfg =>
    -- lines 110-115: -K resets the cache and exits 0
    if inv.resetFlag then
      ⟨.exited 0, [.loadConfig, .invalidateCache cu], invalidate w.cache cu⟩
    -- lines 118-154: -i login-shell path
    else if inv.loginFlag then
      loginPath inv w
    else
      plainPath inv w cu

/-- The whole of `main` (`main.rs` lines 35-207): refuse uid 0, require
effective uid 0 (setuid), clap argument checks, then the core flow. -/
def elevMain (inv : Invocation) (w : World) : RunResult :=
  if inv.uid = 0 then ⟨.exited 1, [], w.cache⟩
  else if inv.euid ≠ 0 then ⟨.exited 1, [], w.cache⟩
  else if ¬inv.loginFlag ∧ ¬inv.resetFlag ∧ inv.command = [] then
    -- clap: COMMAND required unless -i or -K; usage error exits 2
    ⟨.exited 2, [], w.cache⟩
  else
    elevMainCore inv w (invokerName inv w)

/-! Concrete invocations and worlds used to evaluate the model. -/

/-- A policy with no rules: nobody is authorized. -/
def cfgEmpty : Config := ⟨60, []⟩

/-- A login-shell (`-i`) invocation by uid 1000 whose environment carries
an attacker-controlled variable. -/
def invLogin : Invocation :=
  ⟨1000, 0, true, false, "root", [], [("LD_PRELOAD", "/evil.so")]⟩

/-- World for the login-shell run: the policy has no rules, the cache is
empty, the password check would fail, yet the run reaches exec. -/
def wLogin : World where
  passwd := some (some "mallory")
  groupsOf := fun _ => []
  configLoad := .ok cfgEmpty
  configLoad2 := .ok cfgEmpty
  cache := []
  now := 0
  targetLookup := .ok (some ⟨"/root", "/bin/bash"⟩)
  switchResult := .ok ()
  execResult := none
  checkPassword := fun _ => false

/-- The environment the modelled login-shell exec receives for
`invLogin`/`wLogin`: the inherited variable survives alongside the
overrides, and no PATH is set. -/
def leakedEnv : List (String × String) :=
  [("LD_PRELOAD", "/evil.so"), ("HOME", "/root"), ("USER", "root"),
   ("LOGNAME", "root"), ("SHELL", "/bin/bash"), ("PS1", loginPrompt)]

/-- A `-K` (reset-auth) invocation by uid 1003 with a command list left
empty (allowed when `-K` is present). -/
def invReset : Invocation := ⟨1003, 0, false, true, "root", [], []⟩

/-- World in which loading `/etc/elev.conf` fails, while the invoker has
an existing credential-cache record. -/
def wBadConf : World where
  passwd := some (some "dave")
  groupsOf := fun _ => []
  configLoad := .error .notFound
  configLoad2 := .error .notFound
  cache := [("dave", ⟨0, true⟩)]
  now := 1
  targetLookup := .ok none
  switchResult := .ok ()
  execResult := none
  checkPassword := fun _ => false

/-- C1: the claim says the privilege transition happens only after an
allowed authorization decision, on the `-i` path as well.  Evaluating the
embedded `main` on a `-i` invocation under a policy with no rules at all:
the trace switches user and execs the login shell, with no policy
evaluation and no password prompt anywhere.  `main.rs` lines 118-154 call
`switch_user` and `exec` without consulting `check_timeout`,
`verify_password` or any rule. -/
theorem login_path_switches_user_without_authorization :
    (elevMain invLogin wLogin).events =
      [.loadConfig, .switchUser "root", .execAttempt "/bin/bash" ["-l"] leakedEnv] ∧
    ((elevMain invLogin wLogin).events.all fun e =>
      match e with
      | .evalPolicy _ _ => false
      | .authenticate _ => false
      | _ => true) = true ∧
    (elevMain invLogin wLogin).outcome = .replaced "/bin/bash" ["-l"] leakedEnv := by
  decide

/-- C2: an invocation whose real uid is 0 exits with status 1 before any
policy load, evaluation, authentication, switch or exec (the event trace
is empty) and the cache is untouched (`main.rs` lines 40-43). -/
theorem uid_zero_refused (inv : Invocation) (w : World) (h : inv.uid = 0) :
    elevMain inv w = ⟨.exited 1, [], w.cache⟩ := by
  simp [elevMain, h]

/-- Witness for C2 at a concrete root invocation. -/
theorem uid_zero_refused_witness :
    elevMain ⟨0, 0, false, false, "root", ["id"], []⟩ wLogin =
      ⟨.exited 1, [], wLogin.cache⟩ :=
  uid_zero_refused ⟨0, 0, false, false, "root", ["id"], []⟩ wLogin rfl

/-- C3: the claim says every exec receives a freshly built minimal
environment with all inherited variables discarded.  On the login-shell
path `main.rs` builds the `std::process::Command` with `.env` overrides
but never clears the inherited environment, so an inherited
`LD_PRELOAD` survives into the executed shell's environment (and no PATH
is set). -/
theorem login_env_retains_inherited_variables :
    (elevMain invLogin wLogin).outcome = .replaced "/bin/bash" ["-l"] leakedEnv ∧
    ("LD_PRELOAD", "/evil.so") ∈ leakedEnv ∧
    (leakedEnv.lookup "PATH") = none := by
  decide

/-- C4: the claim says a failure to load the policy file exits with
status 1 on every path.  The first load (`main.rs` line 106, before the
`-K` branch) uses `.expect`, which panics; a Rust panic terminates the
process with status 101, not 1. -/
theorem config_load_failure_panics_with_101 :
    (elevMain invReset wBadConf).outcome = .exited 101 := by
  decide

/-- C6: cache round-trip and expiry.  After `record_success` stamps the
identity with time `now`, `is_valid` with a positive timeout answers true
at any later instant while `later - now < timeout`, and false once the
record is at least `timeout` old. -/
theorem cache_roundtrip_expiry (c : Cache) (id : String) (t now later : Nat)
    (ht : 0 < t) (hle : now ≤ later) :
    (later - now < t → is_valid (record_success c id now) id t later = true) ∧
    (t ≤ later - now → is_valid (record_success c id now) id t later = false) := by
  constructor <;> intro h <;>
    simp [is_valid, record_success, List.lookup, hle, h]

/-- Witness for C6: a record stamped at time 0 with timeout 10 is valid
at time 5 and invalid at time 30. -/
theorem cache_roundtrip_expiry_witness :
    is_valid (record_success [] "bob" 0) "bob" 10 5 = true ∧
    is_valid (record_success [] "bob" 0) "bob" 10 30 = false :=
  ⟨(cache_roundtrip_expiry [] "bob" 10 0 5 (by decide) (by decide)).1 (by decide),
   (cache_roundtrip_expiry [] "bob" 10 0 30 (by decide) (by decide)).2 (by decide)⟩

/-- Projections of `elevMainCore` ignore the passwd field of the world. -/
theorem elevMainCore_passwd (inv : Invocation) (w : World)
    (p : Option (Option String)) (cu : String) :
    elevMainCore inv { w with passwd := p } cu = elevMainCore inv w cu := rfl

/-- Resolving the invoker name on an updated passwd field. -/
theorem invokerName_update (inv : Invocation) (w : World) (s : String) :
    invokerName inv { w with passwd := some (some s) } = s := rfl

/-- C9: when the passwd lookup of the real uid fails (no entry, or a null
name field), the invoker's username is the decimal rendering of the uid,
and the entire invocation behaves exactly as if the passwd database had
returned that string — so group resolution, policy matching and
credential-cache keying all use the fallback string. -/
theorem real_username_fallback (inv : Invocation) (w : World)
    (h : w.passwd = none ∨ w.passwd = some none) :
    invokerName inv w = toString inv.uid ∧
    elevMain inv w = elevMain inv { w with passwd := some (some (toString inv.uid)) } := by
  have hn : invokerName inv w = toString inv.uid := by
    rcases h with h | h <;> simp [invokerName, real_username, h]
  refine ⟨hn, ?_⟩
  unfold elevMain
  rw [elevMainCore_passwd, invokerName_update, hn]
  rfl

/-- Witness for C9: uid 4242 with no passwd entry resolves to "4242" and
runs identically to a world whose passwd entry names "4242". -/
theorem real_username_fallback_witness :
    invokerName invLogin { wLogin with passwd := none } = "1000" ∧
    elevMain invLogin { wLogin with passwd := none } =
      elevMain invLogin { wLogin with passwd := some (some "1000") } :=
  real_username_fallback invLogin { wLogin with passwd := none } (Or.inl rfl)

/-- C10: on a `-K` invocation (by a non-root invoker of the setuid
binary), if the policy file fails to load, the process terminates (via
the `.expect` panic, status 101) before the invalidation step: the cache
is unchanged and no invalidation event occurs. -/
theorem reset_config_failure_preserves_cache (inv : Invocation) (w : World)
    (hK : inv.resetFlag = true) (hu : inv.uid ≠ 0) (he : inv.euid = 0)
    (hc : ∃ e, w.configLoad = .error e) :
    (elevMain inv w).cache = w.cache ∧
    (elevMain inv w).events = [.loadConfig] ∧
    (elevMain inv w).outcome = .exited 101 := by
  obtain ⟨e, hce⟩ := hc
  simp [elevMain, elevMainCore, hK, hu, he, hce]

/-- Witness for C10 at a concrete `-K` run with a failing config load:
the pre-existing cache record for "dave" survives untouched. -/
theorem reset_config_failure_preserves_cache_witness :
    (elevMain invReset wBadConf).cache = [("dave", ⟨0, true⟩)] ∧
    (elevMain invReset wBadConf).events = [.loadConfig] ∧
    (elevMain invReset wBadConf).outcome = .exited 101 :=
  reset_config_failure_preserves_cache invReset wBadConf rfl (by decide) rfl
    ⟨.notFound, rfl⟩

/-- Helper: `run_command` never emits an authenticate event. -/
theorem run_command_no_authenticate (cmd : String) (args : List String)
    (target : String) (cfg : Config) (cu : String) (groups : List String)
    (w : World) (n : String) :
    Event.authenticate n ∉ (run_command cmd args target cfg cu groups w).2 := by
  unfold run_command
  repeat' split
  all_goals simp

/-- Helper: any authenticate event of `verify_password` names the invoker
argument `cu`. -/
theorem verify_password_authenticate (cu : String) (groups : List String)
    (cfg : Config) (target : String) (w : World) (c : Cache) (n : String)
    (h : Event.authenticate n ∈ (verify_password cu groups cfg target w c).2.2) :
    n = cu := by
  unfold verify_password at h
  repeat' split at h
  all_goals simp_all

/-- Helper: the login-shell path never emits an authenticate event. -/
theorem loginPath_no_authenticate (inv : Invocation) (w : World) (n : String) :
    Event.authenticate n ∉ (loginPath inv w).events := by
  unfold loginPath
  repeat' split
  all_goals simp

/-- Helper: any authenticate event of the plain-command path names the
resolved invoker `cu`. -/
theorem plainPath_authenticate (inv : Invocation) (w : World) (cu n : String)
    (h : Event.authenticate n ∈ (plainPath inv w cu).events) : n = cu := by
  unfold plainPath at h
  simp only [] at h
  split at h
  · simp at h
  · split at h
    · simp only [List.mem_append] at h
      rcases h with h | h
      · simp at h
      · exact absurd h (run_command_no_authenticate _ _ _ _ _ _ _ _)
    · split at h
      · simp only [List.mem_append] at h
        rcases h with (h | h) | h
        · simp at h
        · exact verify_password_authenticate _ _ _ _ _ _ _ h
        · exact absurd h (run_command_no_authenticate _ _ _ _ _ _ _ _)
      · simp only [List.mem_append] at h
        rcases h with h | h
        · simp at h
        · exact verify_password_authenticate _ _ _ _ _ _ _ h

/-- C8: every password challenge authenticates the invoking identity —
any authenticate event in any run names the invoker's resolved username,
never the target chosen with `-u` (unless they coincide by name). -/
theorem authenticates_invoker_only (inv : Invocation) (w : World) (n : String)
    (h : Event.authenticate n ∈ (elevMain inv w).events) :
    n = invokerName inv w := by
  unfold elevMain elevMainCore at h
  repeat' split at h
  · simp at h
  · simp at h
  · simp at h
  · simp at h
  · simp at h
  · exact absurd h (loginPath_no_authenticate _ _ _)
  · exact plainPath_authenticate _ _ _ _ h

/-- Policy granting bob any target after a password. -/
def cfgBob : Config := ⟨60, [⟨.user "bob", ["ALL"], true⟩]⟩

/-- A plain-command invocation by uid 1001 targeting root. -/
def invBob : Invocation := ⟨1001, 0, false, false, "root", ["whoami"], []⟩

/-- World where bob has no cached session, so a password prompt occurs. -/
def wBob : World where
  passwd := some (some "bob")
  groupsOf := fun _ => []
  configLoad := .ok cfgBob
  configLoad2 := .ok cfgBob
  cache := []
  now := 100
  targetLookup := .ok (some ⟨"/root", "/bin/sh"⟩)
  switchResult := .ok ()
  execResult := none
  checkPassword := fun n => n == "bob"

/-- Witness for C8: the prompt in bob's run authenticates "bob", the
invoker, while the requested target is "root". -/
theorem authenticates_invoker_only_witness :
    Event.authenticate "bob" ∈ (elevMain invBob wBob).events ∧
    "bob" = invokerName invBob wBob ∧ invBob.targetUser = "root" :=
  ⟨by decide, authenticates_invoker_only invBob wBob "bob" (by decide), rfl⟩

/-- Helper: what the plain path does when no rule matches the invoker:
denial, exit 1, no switch, no exec, cache untouched — whatever the cache
state. -/
theorem plainPath_no_rule (inv : Invocation) (w : World) (cu : String)
    (cfg2 : Config) (h2 : w.configLoad2 = .ok cfg2)
    (hno : cfg2.evaluate cu (w.groupsOf cu) inv.targetUser = none) :
    plainPath inv w cu =
      ⟨.exited 1, [.loadConfig, .loadConfig, .evalPolicy cu inv.targetUser],
       w.cache⟩ := by
  unfold plainPath
  rw [h2]
  simp only []
  split <;> simp [run_command, verify_password, hno]

/-- C5: an invoker matched by no rule of the loaded policy is denied and
the command is never run, regardless of the credential-cache state: the
whole run is exactly config loads, one policy evaluation, exit 1, with no
switch, no exec and the cache untouched. -/
theorem no_matching_rule_denies (inv : Invocation) (w : World)
    (cfg1 cfg2 : Config)
    (hu : inv.uid ≠ 0) (he : inv.euid = 0)
    (hL : inv.loginFlag = false) (hK : inv.resetFlag = false)
    (hcmd : inv.command ≠ [])
    (h1 : w.configLoad = .ok cfg1) (h2 : w.configLoad2 = .ok cfg2)
    (hno : cfg2.evaluate (invokerName inv w) (w.groupsOf (invokerName inv w))
        inv.targetUser = none) :
    elevMain inv w =
      ⟨.exited 1,
       [.loadConfig, .loadConfig, .evalPolicy (invokerName inv w) inv.targetUser],
       w.cache⟩ := by
  have hp := plainPath_no_rule inv w (invokerName inv w) cfg2 h2 hno
  unfold elevMain elevMainCore
  simp [hu, he, hL, hK, hcmd, h1, hp]

/-- A plain-command invocation by uid 1002. -/
def invNone : Invocation := ⟨1002, 0, false, false, "root", ["id"], []⟩

/-- World where carol holds a fresh, valid cache record (granted at 90,
now 100, timeout 60) but the policy has no rules. -/
def wNone : World where
  passwd := some (some "carol")
  groupsOf := fun _ => ["users"]
  configLoad := .ok cfgEmpty
  configLoad2 := .ok cfgEmpty
  cache := [("carol", ⟨90, true⟩)]
  now := 100
  targetLookup := .ok (some ⟨"/root", "/bin/sh"⟩)
  switchResult := .ok ()
  execResult := none
  checkPassword := fun _ => true

/-- Witness for C5: carol's cache record is valid (the prompt would be
skipped), yet the empty policy denies and nothing is executed. -/
theorem no_matching_rule_denies_witness :
    is_valid wNone.cache "carol" 60 wNone.now = true ∧
    elevMain invNone wNone =
      ⟨.exited 1, [.loadConfig, .loadConfig, .evalPolicy "carol" "root"],
       wNone.cache⟩ :=
  ⟨by decide,
   no_matching_rule_denies invNone wNone cfgEmpty cfgEmpty (by decide) rfl rfl rfl
     (by decide) rfl rfl rfl⟩

/-- Helper: under a returned exec, `run_command` never reports success. -/
theorem run_command_exec_error (cmd : String) (args : List String)
    (target : String) (cfg : Config) (cu : String) (groups : List String)
    (w : World) (k : ErrKind) (hex : w.execResult = some k) (o : Outcome) :
    (run_command cmd args target cfg cu groups w).1 ≠ .ok o := by
  unfold run_command
  repeat' split
  all_goals intro hc
  all_goals simp_all

/-- Helper: under a returned exec the login-shell path exits 1. -/
theorem loginPath_exec_failure (inv : Invocation) (w : World) (k : ErrKind)
    (hex : w.execResult = some k) :
    (loginPath inv w).outcome = .exited 1 := by
  unfold loginPath
  repeat' split <;> simp_all

/-- Helper: under a returned exec the plain-command path exits 1. -/
theorem plainPath_exec_failure (inv : Invocation) (w : World) (cu : String)
    (k : ErrKind) (hex : w.execResult = some k) :
    (plainPath inv w cu).outcome = .exited 1 := by
  unfold plainPath
  simp only []
  split
  · rfl
  · split
    · split
      · rename_i o heq
        exact absurd heq (run_command_exec_error _ _ _ _ _ _ _ k hex o)
      · rfl
    · split
      · split
        · rename_i o heq
          exact absurd heq (run_command_exec_error _ _ _ _ _ _ _ k hex o)
        · rfl
      · rfl

/-- C7: if control returns after an attempted exec (on either path), the
run is reported as a failure: the outcome is never a successful
replacement, and any run whose trace reaches an exec attempt terminates
with exit status 1. -/
theorem exec_return_reported_as_failure (inv : Invocation) (w : World)
    (k : ErrKind) (hex : w.execResult = some k) :
    (∀ p a e, (elevMain inv w).outcome ≠ .replaced p a e) ∧
    (∀ p a e, Event.execAttempt p a e ∈ (elevMain inv w).events →
      (elevMain inv w).outcome = .exited 1) := by
  have hl := loginPath_exec_failure inv w k hex
  have hp := plainPath_exec_failure inv w (invokerName inv w) k hex
  unfold elevMain elevMainCore
  repeat' split
  all_goals refine ⟨fun p a e => ?_, fun p a e hm => ?_⟩
  all_goals simp_all

/-- A plain-command invocation by uid 1004 running a missing program. -/
def invGone : Invocation := ⟨1004, 0, false, false, "root", ["nosuch"], []⟩

/-- World where erin is authorized without a password but the exec of the
requested program returns with NotFound. -/
def wGone : World where
  passwd := some (some "erin")
  groupsOf := fun _ => []
  configLoad := .ok ⟨60, [⟨.user "erin", ["ALL"], false⟩]⟩
  configLoad2 := .ok ⟨60, [⟨.user "erin", ["ALL"], false⟩]⟩
  cache := []
  now := 0
  targetLookup := .ok (some ⟨"/root", "/bin/sh"⟩)
  switchResult := .ok ()
  execResult := some .notFound
  checkPassword := fun _ => false

/-- Witness for C7: erin's run attempts the exec, the exec returns, and
the process exits 1 rather than continuing or reporting success. -/
theorem exec_return_reported_as_failure_witness :
    Event.execAttempt "nosuch" []
        (execEnv true [] [("HOME", "/root"), ("USER", "root"),
          ("LOGNAME", "root"), ("SHELL", "/bin/sh"), ("PATH", defaultPath)])
      ∈ (elevMain invGone wGone).events ∧
    (elevMain invGone wGone).outcome = .exited 1 :=
  ⟨by decide,
   (exec_return_reported_as_failure invGone wGone .notFound rfl).2 "nosuch" []
     (execEnv true [] [("HOME", "/root"), ("USER", "root"),
       ("LOGNAME", "root"), ("SHELL", "/bin/sh"), ("PATH", defaultPath)])
     (by decide)⟩

end Elev
